import Mathlib

/-
  Verification of the pod-manifest validation engine of
  AlexeyKuzko/go-devops-engineer-magistr-lesson2.

  The repository contains three Go variants of the same validator:
  - namespace MG embeds src/main.go (collect-all policy);
  - namespace P0 embeds src/unnamed/part_000 (fail-fast, cpu as int);
  - namespace P1 embeds src/unnamed/part_001 (fail-fast, cpu as interface).

  Go regular-expression checks are embedded as executable string
  predicates implementing the exact semantics of the regex literal that
  appears in the source (all patterns are anchored with a caret and a
  dollar, so matching is a whole-string property).
-/

/-- Character-list prefix test (used to implement substring search and
the anchored registry prefix of the image regex). -/
def isPref : List Char → List Char → Bool
  | [], _ => true
  | _ :: _, [] => false
  | a :: as, b :: bs => a = b && isPref as bs

/-- Substring containment on character lists: Go strings.Contains. -/
def hasSub (needle : List Char) : List Char → Bool
  | [] => isPref needle []
  | h :: t => isPref needle (h :: t) || hasSub needle t

/-- Split a character list at the last occurrence of a character:
returns the part before and the part after that occurrence. -/
def splitOnLast (c : Char) : List Char → Option (List Char × List Char)
  | [] => none
  | x :: xs =>
    match splitOnLast c xs with
    | some (a, b) => some (x :: a, b)
    | none => if x = c then some ([], xs) else none

/-- Character class of the Go regex pattern anchored-bracket a-z0-9_
used for container names. -/
def isSnakeChar (c : Char) : Bool :=
  (Nat.ble 97 c.toNat && Nat.ble c.toNat 122) ||
  (Nat.ble 48 c.toNat && Nat.ble c.toNat 57) || c = Char.ofNat 95

/-- Character class a-zA-Z0-9_.- of the tag part of the image regex. -/
def imageTagChar (c : Char) : Bool :=
  c.isAlpha || c.isDigit || c = Char.ofNat 95 || c = Char.ofNat 46 || c = Char.ofNat 45

/-- Whole-string match of the Go regex for container names: one or more
characters of the snake character class. -/
def matchSnake (s : String) : Bool :=
  !s.isEmpty && s.toList.all isSnakeChar

/-- Whole-string match of the Go image regex: the literal registry
prefix, then one or more arbitrary non-newline characters, then a colon,
then one or more tag characters.  Because tag characters exclude the
colon, a match exists exactly when the text after the prefix splits at
its last colon into a nonempty newline-free middle and a nonempty tag. -/
def matchImage (s : String) : Bool :=
  let pre : List Char := String.toList "registry.bigbrother.io/"
  isPref pre s.toList &&
    (match splitOnLast (Char.ofNat 58) (s.toList.drop pre.length) with
     | some (mid, tag) =>
       !mid.isEmpty && mid.all (fun ch => ch ≠ Char.ofNat 10) &&
       !tag.isEmpty && tag.all imageTagChar
     | none => false)

/-- Whole-string match of the Go regex for digit-only strings: one or
more ASCII digits. -/
def matchDigits (s : String) : Bool :=
  !s.isEmpty && s.toList.all Char.isDigit

/-- Whole-string match of the Go memory regex: one or more digits
followed by Ki, Mi or Gi. -/
def matchMemory (s : String) : Bool :=
  match s.toList.reverse with
  | 'i' :: u :: rest =>
    (u = 'K' || u = 'M' || u = 'G') && !rest.isEmpty && rest.all Char.isDigit
  | _ => false

/-- First error of a list of optional errors: the Go pattern of a loop
that returns on the first non-nil error. -/
def firstSome : List (Option String) → Option String
  | [] => none
  | o :: rest =>
    match o with
    | some e => some e
    | none => firstSome rest

/-- Turn an optional error into a zero- or one-element list: the Go
pattern of appending err.Error() to a slice when err is non-nil. -/
def optToList : Option String → List String
  | some e => [e]
  | none => []

/-- Wrap a string in single quotes, as the Go format verb does in the
error messages of the source. -/
def sQuote (s : String) : String := "\x27" ++ s ++ "\x27"

/-- Go strings.Split on the newline separator, over character lists:
splitting the empty text yields one empty line, and every newline starts
a fresh line. -/
def splitLines : List Char → List (List Char)
  | [] => [[]]
  | c :: cs =>
    let r := splitLines cs
    if c = Char.ofNat 10 then [] :: r
    else
      match r with
      | h :: t => (c :: h) :: t
      | [] => [[c]]

/-- ASCII whitespace test used to embed Go strings.TrimSpace (the
documents of interest contain only ASCII). -/
def isSpaceChar (c : Char) : Bool :=
  c = Char.ofNat 32 || c = Char.ofNat 9 || c = Char.ofNat 10 || c = Char.ofNat 13

/-- Embedding of Go strings.TrimSpace: drop whitespace from both ends. -/
def trimChars (s : String) : String :=
  ⟨((s.toList.dropWhile isSpaceChar).reverse.dropWhile isSpaceChar).reverse⟩

/-- Embedding of Go strings.Join with the newline separator. -/
def joinNL : List String → String
  | [] => ""
  | [s] => s
  | s :: rest => s ++ "\x0a" ++ joinNL rest

/-- Model of a Go interface value as it can arrive from the YAML
loader into the cpu field: an integer, a string, a boolean, or nil
(absent field).  The Go type switch of the source distinguishes int,
string and a default case; vbool and vnil both take the default case. -/
inductive GoVal where
  | vint (n : Int)
  | vstr (s : String)
  | vbool (b : Bool)
  | vnil
deriving DecidableEq, Repr

namespace P1

/-- ObjectMeta of part_001 (the namespace field is called nspace here
because namespace is a Lean keyword). -/
structure ObjectMeta where
  name : String
  nspace : String
  labels : List (String × String)
deriving DecidableEq, Repr

structure ContainerPort where
  containerPort : Int
  protocol : String
deriving DecidableEq, Repr

structure HTTPGetAction where
  path : String
  port : Int
deriving DecidableEq, Repr

structure Probe where
  httpGet : HTTPGetAction
deriving DecidableEq, Repr

structure ResourceLimits where
  cpu : GoVal
  memory : String
deriving DecidableEq, Repr

structure ResourceRequirements where
  limits : ResourceLimits
  requests : ResourceLimits
deriving DecidableEq, Repr

structure Container where
  name : String
  image : String
  ports : List ContainerPort
  readinessProbe : Probe
  livenessProbe : Probe
  resources : ResourceRequirements
deriving DecidableEq, Repr

structure PodSpec where
  os : String
  containers : List Container
deriving DecidableEq, Repr

structure Pod where
  apiVersion : String
  kind : String
  metadata : ObjectMeta
  spec : PodSpec
deriving DecidableEq, Repr

/-- part_001 validateContainerPort: range check 1..65535, then the
protocol check against TCP and UDP. -/
def validateContainerPort (port : ContainerPort) : Option String :=
  if port.containerPort < 1 ∨ port.containerPort > 65535 then
    some ("containerPort value out of range: " ++ toString port.containerPort)
  else if port.protocol ≠ "" ∧ port.protocol ≠ "TCP" ∧ port.protocol ≠ "UDP" then
    some ("protocol has unsupported value " ++ sQuote port.protocol)
  else
    none

/-- part_001 validateProbe: unconditional range check of
httpGet.port (the probeName parameter is only used in the message). -/
def validateProbe (probe : Probe) (probeName : String) : Option String :=
  if probe.httpGet.port ≤ 0 ∨ probe.httpGet.port ≥ 65536 then
    some (probeName ++ ".httpGet.port value out of range")
  else
    none

/-- part_001 validateResources: type switch on the cpu limit (int must
be positive, string must be digit-only, anything else is a type error),
then the memory limit (required and matched against the memory regex). -/
def validateResources (resources : ResourceRequirements) : Option String :=
  let cpuErr : Option String :=
    match resources.limits.cpu with
    | GoVal.vint v =>
      if v ≤ 0 then some "resources.limits.cpu is required and must be positive" else none
    | GoVal.vstr v =>
      if matchDigits v then none
      else some ("resources.limits.cpu has invalid format " ++ sQuote v)
    | _ => some "resources.limits.cpu has invalid type"
  match cpuErr with
  | some e => some e
  | none =>
    if resources.limits.memory = "" then
      some "resources.limits.memory is required"
    else if matchMemory resources.limits.memory then
      none
    else
      some ("resources.limits.memory has invalid format " ++ sQuote resources.limits.memory)

/-- part_001 validateContainer: name format, image format, each port in
order, resources, readiness probe, liveness probe; fail-fast. -/
def validateContainer (container : Container) : Option String :=
  if !matchSnake container.name then
    some ("containers.name has invalid format " ++ sQuote container.name)
  else if !matchImage container.image then
    some ("containers.image has invalid format " ++ sQuote container.image)
  else
    match firstSome (container.ports.map validateContainerPort) with
    | some e => some e
    | none =>
      match validateResources container.resources with
      | some e => some e
      | none =>
        match validateProbe container.readinessProbe "readinessProbe" with
        | some e => some e
        | none => validateProbe container.livenessProbe "livenessProbe"

/-- part_001 validatePod: apiVersion, kind, metadata.name, spec.os,
spec.containers nonempty, then each container in order; fail-fast. -/
def validatePod (pod : Pod) : Option String :=
  if pod.apiVersion ≠ "v1" then
    some ("apiVersion has unsupported value " ++ sQuote pod.apiVersion)
  else if pod.kind ≠ "Pod" then
    some ("kind has unsupported value " ++ sQuote pod.kind)
  else if pod.metadata.name = "" then
    some "metadata.name is required"
  else if pod.spec.os ≠ "linux" ∧ pod.spec.os ≠ "windows" then
    some ("spec.os has unsupported value " ++ sQuote pod.spec.os)
  else if pod.spec.containers.length = 0 then
    some "spec.containers is required"
  else
    firstSome (pod.spec.containers.map validateContainer)

end P1

example : matchImage "registry.bigbrother.io/api:1.0" = true := by decide

example : matchMemory "256Mi" = true ∧ matchMemory "512GB" = false := by decide

example :
    P1.validateResources ⟨⟨GoVal.vstr "0", "256Mi"⟩, ⟨GoVal.vnil, ""⟩⟩ = none := by decide

namespace P0

/-- ObjectMeta of part_000 (the namespace field is called nspace here
because namespace is a Lean keyword). -/
structure ObjectMeta where
  name : String
  nspace : String
  labels : List (String × String)
deriving DecidableEq, Repr

structure ContainerPort where
  containerPort : Int
  protocol : String
deriving DecidableEq, Repr

structure HTTPGetAction where
  path : String
  port : Int
deriving DecidableEq, Repr

structure Probe where
  httpGet : HTTPGetAction
deriving DecidableEq, Repr

/-- ResourceLimits of part_000: the cpu field is a plain Go int. -/
structure ResourceLimits where
  cpu : Int
  memory : String
deriving DecidableEq, Repr

structure ResourceRequirements where
  limits : ResourceLimits
  requests : ResourceLimits
deriving DecidableEq, Repr

structure Container where
  name : String
  image : String
  ports : List ContainerPort
  readinessProbe : Probe
  livenessProbe : Probe
  resources : ResourceRequirements
deriving DecidableEq, Repr

structure PodSpec where
  os : String
  containers : List Container
deriving DecidableEq, Repr

structure Pod where
  apiVersion : String
  kind : String
  metadata : ObjectMeta
  spec : PodSpec
deriving DecidableEq, Repr

/-- Body of the port loop of part_000 validateContainer: range check
with an exclusive upper bound of 65536, then the protocol check. -/
def checkPort (port : ContainerPort) : Option String :=
  if port.containerPort ≤ 0 ∨ port.containerPort ≥ 65536 then
    some "containerPort value out of range"
  else if port.protocol ≠ "" ∧ port.protocol ≠ "TCP" ∧ port.protocol ≠ "UDP" then
    some ("protocol has unsupported value " ++ sQuote port.protocol)
  else
    none

/-- part_000 validateResources: cpu limit must be a positive int, then
the memory limit (required and matched against the memory regex). -/
def validateResources (resources : ResourceRequirements) : Option String :=
  if resources.limits.cpu ≤ 0 then
    some "resources.limits.cpu is required and must be positive"
  else if resources.limits.memory = "" then
    some "resources.limits.memory is required"
  else if matchMemory resources.limits.memory then
    none
  else
    some ("resources.limits.memory has invalid format " ++ sQuote resources.limits.memory)

/-- part_000 validateContainer: name format, image format, each port in
order, resources; no probe validation in this variant; fail-fast. -/
def validateContainer (container : Container) : Option String :=
  if !matchSnake container.name then
    some ("containers.name has invalid format " ++ sQuote container.name)
  else if !matchImage container.image then
    some ("containers.image has invalid format " ++ sQuote container.image)
  else
    match firstSome (container.ports.map checkPort) with
    | some e => some e
    | none => validateResources container.resources

/-- part_000 validatePod: apiVersion, kind, metadata.name, spec.os,
spec.containers nonempty, then each container in order; fail-fast. -/
def validatePod (pod : Pod) : Option String :=
  if pod.apiVersion ≠ "v1" then
    some ("apiVersion has unsupported value " ++ sQuote pod.apiVersion)
  else if pod.kind ≠ "Pod" then
    some ("kind has unsupported value " ++ sQuote pod.kind)
  else if pod.metadata.name = "" then
    some "metadata.name is required"
  else if pod.spec.os ≠ "linux" ∧ pod.spec.os ≠ "windows" then
    some ("spec.os has unsupported value " ++ sQuote pod.spec.os)
  else if pod.spec.containers.length = 0 then
    some "spec.containers is required"
  else
    firstSome (pod.spec.containers.map validateContainer)

end P0

namespace MG

structure Metadata where
  name : String
  nspace : String
  labels : List (String × String)
deriving DecidableEq, Repr

structure Port where
  containerPort : Int
  protocol : String
deriving DecidableEq, Repr

structure HTTPGet where
  path : String
  port : Int
deriving DecidableEq, Repr

structure Probe where
  httpGet : HTTPGet
deriving DecidableEq, Repr

/-- ResourceLimits of main.go: the cpu field is a Go interface value. -/
structure ResourceLimits where
  cpu : GoVal
  memory : String
deriving DecidableEq, Repr

structure Resource where
  limits : ResourceLimits
  requests : ResourceLimits
deriving DecidableEq, Repr

structure Container where
  name : String
  image : String
  ports : List Port
  readinessProbe : Probe
  livenessProbe : Probe
  resources : Resource
deriving DecidableEq, Repr

structure Spec where
  os : String
  containers : List Container
deriving DecidableEq, Repr

structure Pod where
  apiVersion : String
  kind : String
  metadata : Metadata
  spec : Spec
deriving DecidableEq, Repr

/-- Helper of main.go getLineNumber: scan the split lines carrying a
1-based index, returning the index of the first line that contains the
field as a substring, or -1 when no line does. -/
def findLine (field : String) : Int → List (List Char) → Int
  | _, [] => -1
  | i, l :: ls =>
    if hasSub field.toList l then i else findLine field (i + 1) ls

/-- main.go getLineNumber: split the raw source text on newlines and
search for the first line containing the field name. -/
def getLineNumber (data field : String) : Int :=
  findLine field 1 (splitLines data.toList)

/-- main.go validatePort: range check with inclusive bounds 1 and
65535; the message carries the relative path and a searched line. -/
def validatePort (port : Port) (data relPath : String) : Option String :=
  if port.containerPort ≤ 0 ∨ port.containerPort > 65535 then
    some (relPath ++ ":" ++ toString (getLineNumber data "containerPort") ++
      ": containerPort value out of range")
  else
    none

/-- main.go validateProbe: unconditional range check of httpGet.port;
the probeType parameter is unused in the source as well.  Note the
message has no colon after the line number in the source format string. -/
def validateProbe (probe : Probe) (probeType : String) (data relPath : String) :
    Option String :=
  if probe.httpGet.port ≤ 0 ∨ probe.httpGet.port > 65535 then
    some (relPath ++ ":" ++ toString (getLineNumber data "port") ++
      " port value out of range")
  else
    none

/-- main.go validateCPU: a type switch accepting exactly a native int;
every other dynamic type (string, bool, nil) reaches the default case. -/
def validateCPU (cpu : GoVal) : Except String Int :=
  match cpu with
  | GoVal.vint n => Except.ok n
  | _ => Except.error "must be int"

/-- main.go validateResources: the source compares requests.cpu (an
interface value) against the empty string and, when they differ, feeds
requests.cpu to validateCPU; limits are never inspected. -/
def validateResources (resources : Resource) (data relPath : String) : Option String :=
  if resources.requests.cpu ≠ GoVal.vstr "" then
    match validateCPU resources.requests.cpu with
    | Except.error e =>
      some (relPath ++ ":" ++ toString (getLineNumber data "cpu") ++ ": cpu " ++ e)
    | Except.ok _ => none
  else
    none

/-- Per-container slice of the error accumulation of main.go
validatePod: trimmed name nonempty, image nonempty, at least one port,
each port, both probes, resources; every check appends independently. -/
def containerErrors (container : Container) (data relPath : String) : List String :=
  (if trimChars container.name = "" then
    [relPath ++ ":" ++ toString (getLineNumber data "name") ++ ": name is required"]
   else []) ++
  (if container.image = "" then [relPath ++ ": container.image is required"] else []) ++
  (if container.ports.length = 0 then
    [relPath ++ ": container must define at least one port"]
   else []) ++
  (container.ports.filterMap (fun p => validatePort p data relPath)) ++
  optToList (validateProbe container.readinessProbe "readinessProbe" data relPath) ++
  optToList (validateProbe container.livenessProbe "livenessProbe" data relPath) ++
  optToList (validateResources container.resources data relPath)

/-- main.go validatePod, the validationErrors slice: document-level
checks (apiVersion, kind, metadata.name, os, containers nonempty)
followed by the per-container checks, all appended unconditionally. -/
def validatePodErrors (pod : Pod) (data relPath : String) : List String :=
  (if pod.apiVersion ≠ "v1" then [relPath ++ ": APIVersion must be v1"] else []) ++
  (if pod.kind ≠ "Pod" then [relPath ++ ": kind must be Pod"] else []) ++
  (if pod.metadata.name = "" then
    [relPath ++ ":" ++ toString (getLineNumber data "name") ++ ": name is required"]
   else []) ++
  (if ¬ (pod.spec.os = "linux" ∨ pod.spec.os = "windows") then
    [relPath ++ ":" ++ toString (getLineNumber data "os") ++
      ": os has unsupported value " ++ sQuote pod.spec.os]
   else []) ++
  (if pod.spec.containers.length = 0 then [relPath ++ ": spec.containers is required"] else []) ++
  (pod.spec.containers.map (fun c => containerErrors c data relPath)).flatten

/-- main.go validatePod result: nil on an empty slice, otherwise the
messages joined with newlines. -/
def validatePod (pod : Pod) (data relPath : String) : Option String :=
  match validatePodErrors pod data relPath with
  | [] => none
  | es => some (joinNL es)

end MG

/-- Zero value of the requests field as the YAML loader produces it
when requests are absent: a nil interface and an empty string. -/
def rqZeroGo : P1.ResourceLimits := ⟨GoVal.vnil, ""⟩

/-- The end-to-end document of the specification, in the part_000
model: one container named api, image in the organization registry,
one 8080/TCP port, no probes (zero values), cpu 1 and memory 256Mi. -/
def e2ePodP0 : P0.Pod :=
  ⟨"v1", "Pod", ⟨"web", "", []⟩,
    ⟨"linux",
      [⟨"api", "registry.bigbrother.io/api:1.0", [⟨8080, "TCP"⟩],
        ⟨⟨"", 0⟩⟩, ⟨⟨"", 0⟩⟩, ⟨⟨1, "256Mi"⟩, ⟨0, ""⟩⟩⟩]⟩⟩

/-- The same end-to-end document in the part_001 model. -/
def e2ePodP1 : P1.Pod :=
  ⟨"v1", "Pod", ⟨"web", "", []⟩,
    ⟨"linux",
      [⟨"api", "registry.bigbrother.io/api:1.0", [⟨8080, "TCP"⟩],
        ⟨⟨"", 0⟩⟩, ⟨⟨"", 0⟩⟩, ⟨⟨GoVal.vint 1, "256Mi"⟩, rqZeroGo⟩⟩]⟩⟩

/-- The same end-to-end document in the main.go model. -/
def e2ePodMG : MG.Pod :=
  ⟨"v1", "Pod", ⟨"web", "", []⟩,
    ⟨"linux",
      [⟨"api", "registry.bigbrother.io/api:1.0", [⟨8080, "TCP"⟩],
        ⟨⟨"", 0⟩⟩, ⟨⟨"", 0⟩⟩, ⟨⟨GoVal.vint 1, "256Mi"⟩, ⟨GoVal.vnil, ""⟩⟩⟩]⟩⟩

/-- C1: in part_001, the cpu limit is normalized across representations
(int 2 and string 2 pass; string 2.5, string abc and a boolean are
format or type violations), but in main.go the same container with the
native integer 2 as its cpu limit still gets a cpu violation, because
main.go inspects requests.cpu (nil when absent) instead of limits.cpu
and its validateCPU accepts only a native int. -/
theorem c1_cpu_normalization :
    P1.validateResources ⟨⟨GoVal.vint 2, "256Mi"⟩, rqZeroGo⟩ = none ∧
    P1.validateResources ⟨⟨GoVal.vstr "2", "256Mi"⟩, rqZeroGo⟩ = none ∧
    P1.validateResources ⟨⟨GoVal.vstr "2.5", "256Mi"⟩, rqZeroGo⟩ =
      some "resources.limits.cpu has invalid format \x272.5\x27" ∧
    P1.validateResources ⟨⟨GoVal.vstr "abc", "256Mi"⟩, rqZeroGo⟩ =
      some "resources.limits.cpu has invalid format \x27abc\x27" ∧
    P1.validateResources ⟨⟨GoVal.vbool true, "256Mi"⟩, rqZeroGo⟩ =
      some "resources.limits.cpu has invalid type" ∧
    MG.validateResources ⟨⟨GoVal.vint 2, "256Mi"⟩, ⟨GoVal.vnil, ""⟩⟩ "" "pod.yaml" =
      some "pod.yaml:-1: cpu must be int" := by
  decide

/-- C2: on the end-to-end document of the specification, part_000
returns success, but part_001 reports a readiness-probe violation and
main.go reports two probe violations and a cpu violation, because both
validate the zero-valued (undefined) probes whose port is 0, and
main.go additionally rejects the absent requests.cpu. -/
theorem c2_end_to_end :
    P0.validatePod e2ePodP0 = none ∧
    P1.validatePod e2ePodP1 = some "readinessProbe.httpGet.port value out of range" ∧
    MG.validatePod e2ePodMG "" "pod.yaml" =
      some ("pod.yaml:-1 port value out of range\x0apod.yaml:-1 port value out of range\x0apod.yaml:-1: cpu must be int") := by
  decide

/-- C3: the probe range check accepts exactly the ports 1 to 65535 of a
probe, but it is applied unconditionally, so a container with no probes
defined (zero-valued probes with port 0) does incur a probe violation in
both part_001 and main.go, contrary to the claim. -/
theorem c3_probe_checks :
    (∀ p : Int,
      P1.validateProbe ⟨⟨"", p⟩⟩ "readinessProbe" = none ↔ 1 ≤ p ∧ p ≤ 65535) ∧
    P1.validateProbe ⟨⟨"", 0⟩⟩ "readinessProbe" =
      some "readinessProbe.httpGet.port value out of range" ∧
    MG.validateProbe ⟨⟨"", 0⟩⟩ "readinessProbe" "" "pod.yaml" =
      some "pod.yaml:-1 port value out of range" := by
  refine ⟨?_, by decide, by decide⟩
  intro p
  simp only [P1.validateProbe]
  by_cases h : p ≤ 0 ∨ p ≥ 65536
  · rw [if_pos h]
    simp
    omega
  · rw [if_neg h]
    simp
    omega

/-- Document used against C4: apiVersion and kind are both wrong, two
independent violations. -/
def c4Pod : P1.Pod := ⟨"v2", "Deployment", ⟨"web", "", []⟩, ⟨"linux", []⟩⟩

/-- C4 counterexample: the part_001 variant is fail-fast.  On a
document whose apiVersion and kind are both unsupported, the report is
exactly the apiVersion message; the independently violated kind rule
contributes no entry (the report does not even mention kind). -/
theorem c4_counterexample :
    c4Pod.kind ≠ "Pod" ∧
    P1.validatePod c4Pod = some "apiVersion has unsupported value \x27v2\x27" ∧
    hasSub "kind".toList "apiVersion has unsupported value \x27v2\x27".toList = false := by
  decide

/-- Lifting lemma: any entry of the per-container error slice of a
container of the document is an entry of the full main.go report. -/
theorem mgContainerLift (pod : MG.Pod) (data rel : String) (c : MG.Container)
    (hc : c ∈ pod.spec.containers) (e : String)
    (he : e ∈ MG.containerErrors c data rel) :
    e ∈ MG.validatePodErrors pod data rel := by
  have hf : e ∈ (pod.spec.containers.map (fun c => MG.containerErrors c data rel)).flatten :=
    List.mem_flatten.mpr ⟨_, List.mem_map_of_mem _ hc, he⟩
  simp only [MG.validatePodErrors, List.mem_append]
  tauto

/-- C4 (amended): main.go is collect-all — every independently violated
rule it implements contributes its entry to the report, and an empty
slice of errors means success — while part_001 and part_000 are
fail-fast: an unsupported apiVersion preempts every other check. -/
theorem c4_collection_policy :
    (∀ (pod : MG.Pod) (data rel : String),
      (pod.apiVersion ≠ "v1" →
        (rel ++ ": APIVersion must be v1") ∈ MG.validatePodErrors pod data rel) ∧
      (pod.kind ≠ "Pod" →
        (rel ++ ": kind must be Pod") ∈ MG.validatePodErrors pod data rel) ∧
      (pod.metadata.name = "" →
        (rel ++ ":" ++ toString (MG.getLineNumber data "name") ++ ": name is required") ∈
          MG.validatePodErrors pod data rel) ∧
      (¬ (pod.spec.os = "linux" ∨ pod.spec.os = "windows") →
        (rel ++ ":" ++ toString (MG.getLineNumber data "os") ++
          ": os has unsupported value " ++ sQuote pod.spec.os) ∈
          MG.validatePodErrors pod data rel) ∧
      (pod.spec.containers.length = 0 →
        (rel ++ ": spec.containers is required") ∈ MG.validatePodErrors pod data rel) ∧
      (∀ c ∈ pod.spec.containers,
        (trimChars c.name = "" →
          (rel ++ ":" ++ toString (MG.getLineNumber data "name") ++ ": name is required") ∈
            MG.validatePodErrors pod data rel) ∧
        (c.image = "" →
          (rel ++ ": container.image is required") ∈ MG.validatePodErrors pod data rel) ∧
        (c.ports.length = 0 →
          (rel ++ ": container must define at least one port") ∈
            MG.validatePodErrors pod data rel) ∧
        (∀ p ∈ c.ports, ∀ e, MG.validatePort p data rel = some e →
          e ∈ MG.validatePodErrors pod data rel) ∧
        (∀ e, MG.validateProbe c.readinessProbe "readinessProbe" data rel = some e →
          e ∈ MG.validatePodErrors pod data rel) ∧
        (∀ e, MG.validateProbe c.livenessProbe "livenessProbe" data rel = some e →
          e ∈ MG.validatePodErrors pod data rel) ∧
        (∀ e, MG.validateResources c.resources data rel = some e →
          e ∈ MG.validatePodErrors pod data rel)) ∧
      (MG.validatePodErrors pod data rel = [] → MG.validatePod pod data rel = none)) ∧
    (∀ pod : P1.Pod, pod.apiVersion ≠ "v1" →
      P1.validatePod pod = some ("apiVersion has unsupported value " ++ sQuote pod.apiVersion)) ∧
    (∀ pod : P0.Pod, pod.apiVersion ≠ "v1" →
      P0.validatePod pod = some ("apiVersion has unsupported value " ++ sQuote pod.apiVersion)) := by
  refine ⟨?_, ?_, ?_⟩
  · intro pod data rel
    refine ⟨?_, ?_, ?_, ?_, ?_, ?_, ?_⟩
    · intro h
      simp [MG.validatePodErrors, List.mem_append, h]
    · intro h
      simp [MG.validatePodErrors, List.mem_append, h]
    · intro h
      simp [MG.validatePodErrors, List.mem_append, h]
    · intro h
      simp [MG.validatePodErrors, List.mem_append, h]
    · intro h
      simp [MG.validatePodErrors, List.mem_append, h]
    · intro c hc
      refine ⟨?_, ?_, ?_, ?_, ?_, ?_, ?_⟩
      · intro h
        refine mgContainerLift pod data rel c hc _ ?_
        simp [MG.containerErrors, List.mem_append, h]
      · intro h
        refine mgContainerLift pod data rel c hc _ ?_
        simp [MG.containerErrors, List.mem_append, h]
      · intro h
        refine mgContainerLift pod data rel c hc _ ?_
        simp [MG.containerErrors, List.mem_append, h]
      · intro p hp e he
        refine mgContainerLift pod data rel c hc _ ?_
        have : e ∈ c.ports.filterMap (fun p => MG.validatePort p data rel) :=
          List.mem_filterMap.mpr ⟨p, hp, he⟩
        simp only [MG.containerErrors, List.mem_append]
        tauto
      · intro e he
        refine mgContainerLift pod data rel c hc _ ?_
        simp only [MG.containerErrors, List.mem_append]
        rw [he]
        simp [optToList]
      · intro e he
        refine mgContainerLift pod data rel c hc _ ?_
        simp only [MG.containerErrors, List.mem_append]
        rw [he]
        simp [optToList]
      · intro e he
        refine mgContainerLift pod data rel c hc _ ?_
        simp only [MG.containerErrors, List.mem_append]
        rw [he]
        simp [optToList]
    · intro h
      simp [MG.validatePod, h]
  · intro pod h
    simp [P1.validatePod, h]
  · intro pod h
    simp [P0.validatePod, h]

/-- Main.go document violating several independent rules at once, used
to witness the collect-all theorem. -/
def c4BadC : MG.Container :=
  ⟨"", "", [⟨0, ""⟩], ⟨⟨"", 0⟩⟩, ⟨⟨"", 0⟩⟩, ⟨⟨GoVal.vnil, ""⟩, ⟨GoVal.vnil, ""⟩⟩⟩

def c4BadMG : MG.Pod := ⟨"v2", "Deployment", ⟨"", "", []⟩, ⟨"macos", [c4BadC]⟩⟩

def c4EmptyMG : MG.Pod := ⟨"v2", "Pod", ⟨"web", "", []⟩, ⟨"linux", []⟩⟩

/-- Witness for the collect-all theorem: on a document violating
apiVersion, kind, metadata.name, os and several container rules at
once, each corresponding entry is in the report, and a document with no
containers gets the containers entry. -/
theorem c4_collection_policy_witness :
    ("p: APIVersion must be v1") ∈ MG.validatePodErrors c4BadMG "" "p" ∧
    ("p: kind must be Pod") ∈ MG.validatePodErrors c4BadMG "" "p" ∧
    ("p:-1: name is required") ∈ MG.validatePodErrors c4BadMG "" "p" ∧
    ("p:-1: os has unsupported value \x27macos\x27") ∈ MG.validatePodErrors c4BadMG "" "p" ∧
    ("p: container.image is required") ∈ MG.validatePodErrors c4BadMG "" "p" ∧
    ("p:-1: containerPort value out of range") ∈ MG.validatePodErrors c4BadMG "" "p" ∧
    ("p:-1 port value out of range") ∈ MG.validatePodErrors c4BadMG "" "p" ∧
    ("p:-1: cpu must be int") ∈ MG.validatePodErrors c4BadMG "" "p" ∧
    ("p: spec.containers is required") ∈ MG.validatePodErrors c4EmptyMG "" "p" ∧
    P1.validatePod c4Pod = some ("apiVersion has unsupported value " ++ sQuote "v2") := by
  obtain ⟨hmg, hp1, hp0⟩ := c4_collection_policy
  obtain ⟨h1, h2, h3, h4, h5, h6, h7⟩ := hmg c4BadMG "" "p"
  obtain ⟨g1, g2, g3, g4, g5, g6, g7⟩ := h6 c4BadC (by decide)
  obtain ⟨k1, k2, k3, k4, k5, k6, k7⟩ := (hmg c4EmptyMG "" "p")
  exact ⟨h1 (by decide), h2 (by decide), h3 (by decide), h4 (by decide),
    g2 (by decide), g4 ⟨0, ""⟩ (by decide) _ (by decide), g5 _ (by decide),
    g7 _ (by decide), k5 (by decide), hp1 c4Pod (by decide)⟩

/-- C5: the port range checks of all three variants accept exactly the
integers 1 to 65535 (the three source conditions, written with
different bounds, are equivalent over the integers), and in part_001
the only possible error for a port with a valid protocol is the range
message carrying the offending value. -/
theorem c5_port_range :
    ∀ (p : Int) (data rel : String),
      (P1.validateContainerPort ⟨p, "TCP"⟩ = none ↔ 1 ≤ p ∧ p ≤ 65535) ∧
      (P1.validateContainerPort ⟨p, "TCP"⟩ =
          some ("containerPort value out of range: " ++ toString p) ↔
        p ≤ 0 ∨ p > 65535) ∧
      (P0.checkPort ⟨p, "TCP"⟩ = none ↔ 1 ≤ p ∧ p ≤ 65535) ∧
      (MG.validatePort ⟨p, "TCP"⟩ data rel = none ↔ 1 ≤ p ∧ p ≤ 65535) := by
  intro p data rel
  refine ⟨?_, ?_, ?_, ?_⟩
  · simp only [P1.validateContainerPort]
    by_cases h : p < 1 ∨ p > 65535
    · rw [if_pos h]
      simp
      omega
    · rw [if_neg h, if_neg (by decide)]
      simp
      omega
  · simp only [P1.validateContainerPort]
    by_cases h : p < 1 ∨ p > 65535
    · rw [if_pos h]
      simp
      omega
    · rw [if_neg h, if_neg (by decide)]
      simp
      omega
  · simp only [P0.checkPort]
    by_cases h : p ≤ 0 ∨ p ≥ 65536
    · rw [if_pos h]
      simp
      omega
    · rw [if_neg h, if_neg (by decide)]
      simp
      omega
  · simp only [MG.validatePort]
    by_cases h : p ≤ 0 ∨ p > 65535
    · rw [if_pos h]
      simp
      omega
    · rw [if_neg h]
      simp
      omega

/-- C6 counterexample: the digit string 0 passes the part_001 cpu check
although it does not normalize to a positive integer, and main.go
reports nothing for a container whose cpu limit is the string 2.5 and
whose memory limit is 512GB (its resources check never reads limits;
requests.cpu is set to the empty string here so even that check is
skipped). -/
theorem c6_counterexample :
    P1.validateResources ⟨⟨GoVal.vstr "0", "256Mi"⟩, rqZeroGo⟩ = none ∧
    MG.validateResources ⟨⟨GoVal.vstr "2.5", "512GB"⟩, ⟨GoVal.vstr "", ""⟩⟩ "" "pod.yaml" =
      none := by
  decide

/-- Requirement on the cpu limit that part_001 actually enforces,
written out for comparison with the code: a native integer must be
positive, a string must be digit-only (no positivity), anything else is
rejected. -/
def cpuLimitOK : GoVal → Bool
  | GoVal.vint n => decide (0 < n)
  | GoVal.vstr s => matchDigits s
  | _ => false

/-- Reduction of the memory tail of part_001 validateResources. -/
theorem memTailNoneIff (mem : String) :
    (if mem = "" then some "resources.limits.memory is required"
     else if matchMemory mem then none
     else some ("resources.limits.memory has invalid format " ++ sQuote mem)) = none ↔
      matchMemory mem = true := by
  by_cases h : mem = ""
  · rw [if_pos h, h]
    have hf : matchMemory "" = false := by decide
    simp [hf]
  · rw [if_neg h]
    by_cases h2 : matchMemory mem
    · simp [h2]
    · simp [h2]

/-- C6 (amended): part_001 accepts a resources block exactly when the
cpu limit is a positive native integer or a digit-only string (zero is
let through in string form) and the memory limit matches the memory
regex; the named examples behave as the specification lists them. -/
theorem c6_resources_rules :
    (∀ (cpu : GoVal) (mem : String) (rq : P1.ResourceLimits),
      P1.validateResources ⟨⟨cpu, mem⟩, rq⟩ = none ↔
        cpuLimitOK cpu = true ∧ matchMemory mem = true) ∧
    P1.validateResources ⟨⟨GoVal.vint 1, "512Mi"⟩, rqZeroGo⟩ = none ∧
    P1.validateResources ⟨⟨GoVal.vint 1, "0Gi"⟩, rqZeroGo⟩ = none ∧
    P1.validateResources ⟨⟨GoVal.vint 1, "512"⟩, rqZeroGo⟩ =
      some "resources.limits.memory has invalid format \x27512\x27" ∧
    P1.validateResources ⟨⟨GoVal.vint 1, "512GB"⟩, rqZeroGo⟩ =
      some "resources.limits.memory has invalid format \x27512GB\x27" := by
  refine ⟨?_, by decide, by decide, by decide, by decide⟩
  intro cpu mem rq
  cases cpu with
  | vint n =>
    simp only [P1.validateResources, cpuLimitOK]
    by_cases hn : n ≤ 0
    · rw [if_pos hn]
      simp
      omega
    · rw [if_neg hn]
      rw [memTailNoneIff mem]
      simp
      omega
  | vstr s =>
    simp only [P1.validateResources, cpuLimitOK]
    by_cases hs : matchDigits s
    · rw [if_pos hs]
      rw [memTailNoneIff mem]
      simp [hs]
    · rw [if_neg hs]
      simp [hs]
  | vbool b =>
    simp [P1.validateResources, cpuLimitOK]
  | vnil =>
    simp [P1.validateResources, cpuLimitOK]

/-- Document used against C7: bad apiVersion and a container whose name
has an uppercase letter. -/
def c7Pod : P1.Pod :=
  ⟨"v2", "Pod", ⟨"web", "", []⟩,
    ⟨"linux",
      [⟨"Web", "registry.bigbrother.io/api:1.0", [⟨8080, "TCP"⟩],
        ⟨⟨"", 8080⟩⟩, ⟨⟨"", 8080⟩⟩, ⟨⟨GoVal.vint 1, "256Mi"⟩, rqZeroGo⟩⟩]⟩⟩

/-- C7 counterexample: in the fail-fast part_001 variant, a document
with a badly named container and an unsupported apiVersion yields a
report consisting of the apiVersion message only; no name-format entry
for the container appears (the report does not mention name at all). -/
theorem c7_counterexample :
    matchSnake "Web" = false ∧
    P1.validatePod c7Pod = some "apiVersion has unsupported value \x27v2\x27" ∧
    hasSub "name".toList "apiVersion has unsupported value \x27v2\x27".toList = false := by
  decide

/-- C7 (amended): in part_000 and part_001, a container whose name
contains any character outside lowercase alphanumerics and underscore
is rejected by the container validator with the name-format message
(the name is the first rule checked inside a container); at document
level the fail-fast policy surfaces it only when no earlier rule fails. -/
theorem c7_name_format :
    (∀ c : P1.Container, (∃ ch ∈ c.name.toList, isSnakeChar ch = false) →
      P1.validateContainer c =
        some ("containers.name has invalid format " ++ sQuote c.name)) ∧
    (∀ c : P0.Container, (∃ ch ∈ c.name.toList, isSnakeChar ch = false) →
      P0.validateContainer c =
        some ("containers.name has invalid format " ++ sQuote c.name)) := by
  constructor
  · intro c h
    obtain ⟨ch, hm, hch⟩ := h
    have hall : c.name.toList.all isSnakeChar = false := by
      rw [List.all_eq_false]
      exact ⟨ch, hm, by simp [hch]⟩
    have hsn : matchSnake c.name = false := by
      unfold matchSnake
      rw [hall]
      exact Bool.and_false _
    simp [P1.validateContainer, hsn]
  · intro c h
    obtain ⟨ch, hm, hch⟩ := h
    have hall : c.name.toList.all isSnakeChar = false := by
      rw [List.all_eq_false]
      exact ⟨ch, hm, by simp [hch]⟩
    have hsn : matchSnake c.name = false := by
      unfold matchSnake
      rw [hall]
      exact Bool.and_false _
    simp [P0.validateContainer, hsn]

/-- Container with an uppercase letter in its name, in the part_001
model, used to witness the name-format theorem. -/
def c7BadNameC : P1.Container :=
  ⟨"Web", "registry.bigbrother.io/api:1.0", [⟨8080, "TCP"⟩],
    ⟨⟨"", 8080⟩⟩, ⟨⟨"", 8080⟩⟩, ⟨⟨GoVal.vint 1, "256Mi"⟩, rqZeroGo⟩⟩

/-- Witness: the container named Web is rejected with the name-format
message by the part_001 container validator. -/
theorem c7_name_format_witness :
    P1.validateContainer c7BadNameC =
      some ("containers.name has invalid format " ++ sQuote "Web") :=
  c7_name_format.1 c7BadNameC ⟨Char.ofNat 87, by decide, by decide⟩

/-- C8: each validator is a pure function of its arguments — equal
documents (and, for main.go, equal raw text and path) always produce
equal reports; there is no other state. -/
theorem c8_deterministic :
    (∀ (a b : MG.Pod) (d1 d2 r1 r2 : String), a = b → d1 = d2 → r1 = r2 →
      MG.validatePod a d1 r1 = MG.validatePod b d2 r2) ∧
    (∀ a b : P1.Pod, a = b → P1.validatePod a = P1.validatePod b) ∧
    (∀ a b : P0.Pod, a = b → P0.validatePod a = P0.validatePod b) := by
  refine ⟨?_, ?_, ?_⟩ <;> intros <;> subst_vars <;> rfl

/-- Witness: validating the end-to-end document twice gives the same
report in every variant. -/
theorem c8_deterministic_witness :
    MG.validatePod e2ePodMG "" "p" = MG.validatePod e2ePodMG "" "p" ∧
    P1.validatePod e2ePodP1 = P1.validatePod e2ePodP1 ∧
    P0.validatePod e2ePodP0 = P0.validatePod e2ePodP0 :=
  ⟨c8_deterministic.1 e2ePodMG e2ePodMG "" "" "p" "p" rfl rfl rfl,
   c8_deterministic.2.1 e2ePodP1 e2ePodP1 rfl,
   c8_deterministic.2.2 e2ePodP0 e2ePodP0 rfl⟩

/-- C9: the string branch of the part_001 cpu check has no positivity
test — every digit-only string (in particular the string 0) passes,
while the native integer 0 is rejected as non-positive. -/
theorem c9_string_cpu_no_positivity :
    (∀ s : String, matchDigits s = true →
      P1.validateResources ⟨⟨GoVal.vstr s, "256Mi"⟩, rqZeroGo⟩ = none) ∧
    P1.validateResources ⟨⟨GoVal.vint 0, "256Mi"⟩, rqZeroGo⟩ =
      some "resources.limits.cpu is required and must be positive" := by
  constructor
  · intro s hs
    have hm : matchMemory "256Mi" = true := by decide
    simp [P1.validateResources, hs, hm]
  · decide

/-- Witness: the digit string 0 as cpu limit incurs no violation. -/
theorem c9_string_cpu_witness :
    P1.validateResources ⟨⟨GoVal.vstr "0", "256Mi"⟩, rqZeroGo⟩ = none :=
  c9_string_cpu_no_positivity.1 "0" (by decide)

/-- Fully valid container without ports, part_001 model (probes must be
given in-range ports because part_001 validates probes
unconditionally). -/
def p1PortlessC : P1.Container :=
  ⟨"api", "registry.bigbrother.io/api:1.0", [],
    ⟨⟨"", 8080⟩⟩, ⟨⟨"", 8080⟩⟩, ⟨⟨GoVal.vint 1, "256Mi"⟩, rqZeroGo⟩⟩

/-- Fully valid container without ports, part_000 model. -/
def p0PortlessC : P0.Container :=
  ⟨"api", "registry.bigbrother.io/api:1.0", [],
    ⟨⟨"", 0⟩⟩, ⟨⟨"", 0⟩⟩, ⟨⟨1, "256Mi"⟩, ⟨0, ""⟩⟩⟩

/-- Main.go container with no ports and everything else valid. -/
def mgPortlessC : MG.Container :=
  ⟨"api", "registry.bigbrother.io/api:1.0", [],
    ⟨⟨"", 8080⟩⟩, ⟨⟨"", 8080⟩⟩, ⟨⟨GoVal.vint 1, "256Mi"⟩, ⟨GoVal.vint 1, ""⟩⟩⟩

def c10PodMG : MG.Pod := ⟨"v1", "Pod", ⟨"web", "", []⟩, ⟨"linux", [mgPortlessC]⟩⟩

/-- C10: in the collect-all main.go variant every container with an
empty ports list contributes the at-least-one-port entry to the report,
while the container validators of part_001 and part_000 accept a
container without ports. -/
theorem c10_ports_required :
    (∀ (pod : MG.Pod) (data rel : String), ∀ c ∈ pod.spec.containers, c.ports = [] →
      (rel ++ ": container must define at least one port") ∈
        MG.validatePodErrors pod data rel) ∧
    P1.validateContainer p1PortlessC = none ∧
    P0.validateContainer p0PortlessC = none := by
  refine ⟨?_, by decide, by decide⟩
  intro pod data rel c hc hp
  refine mgContainerLift pod data rel c hc _ ?_
  simp [MG.containerErrors, List.mem_append, hp]

/-- Witness: a document whose single container defines no ports gets
the at-least-one-port entry in the main.go report. -/
theorem c10_ports_required_witness :
    ("p: container must define at least one port") ∈
      MG.validatePodErrors c10PodMG "" "p" :=
  c10_ports_required.1 c10PodMG "" "p" mgPortlessC (by decide) rfl
